import Mathlib

/-!
# Migration runner (`cmd/migrate/main.go`)

A shallow embedding of the `Migrator` of the migrate command: `Up`, `Down`,
`Status`, their helpers and the command dispatch of `main`.

The PostgreSQL server is the external collaborator.  Its state is the record
`DB`; every database call of the Go code is one function on that state, and
every call may fail with a driver error chosen by the environment (`Env.fault`).
Arbitrary SQL text (the contents of `db/schema.sql`, the `DROP TABLE`) is run by
an engine that is a parameter of the development, so the theorems hold for
every behaviour of the server on such text.

Transactions: `BeginTx` takes a snapshot of the committed state and a working
copy; statements run on the working copy; `Commit` publishes the working copy;
the deferred `tx.Rollback()` returns the snapshot.
-/

namespace Migrate

/-! ## Errors -/

/-- Errors raised by the database driver. -/
inductive DbError where
  /-- The connection failed or the server refused the call. -/
  | connection (msg : String)
  /-- The statement names a relation that does not exist. -/
  | undefinedTable (name : String)
  /-- The statement violates a primary key. -/
  | uniqueViolation (key : String)
  /-- A statement of a batch of SQL text failed. -/
  | statement (msg : String)
  deriving DecidableEq, Repr

/-- Text of a driver error. -/
def DbError.message : DbError → String
  | .connection msg => msg
  | .undefinedTable name => "relation \"" ++ name ++ "\" does not exist"
  | .uniqueViolation key => "duplicate key value violates unique constraint: " ++ key
  | .statement msg => msg

/-- Go `error` values the program handles: driver errors, file errors, and
errors wrapped by `fmt.Errorf("<context>: %w", err)`. -/
inductive GoError where
  | driver (e : DbError)
  | file (msg : String)
  | wrap (context : String) (inner : GoError)
  deriving DecidableEq, Repr

/-- The method `Error()`: the text of an error. -/
def GoError.Error : GoError → String
  | .driver e => e.message
  | .file msg => msg
  | .wrap context inner => context ++ ": " ++ inner.Error

/-- The function `errors.Unwrap`: the error a `%w` wrapper holds. -/
def GoError.Unwrap : GoError → Option GoError
  | .wrap _ inner => some inner
  | _ => none

/-! ## Database state -/

/-- A row of `schema_migrations`. -/
structure MigrationRecord where
  version : String
  applied_at : Nat
  deriving DecidableEq, Repr

/-- A table of the target schema: its name and its rows. -/
structure Table where
  name : String
  rows : List String
  deriving DecidableEq, Repr

/-- The target schema: the application tables. -/
abbrev Schema := List Table

/-- Committed state of the database.
`migrations` is the table `schema_migrations` (`none`: the table does not exist).
`ddlInEffect` is a history variable: it records whether the last statement run
on the target schema by the migrator was the schema text of `Up` (`true`) or the
reverse action of `Down` (`false`).  It is written where those statements run,
inside the transaction, and is never read by the program. -/
structure DB where
  migrations : Option (List MigrationRecord)
  schema : Schema
  ddlInEffect : Bool
  deriving DecidableEq, Repr

/-- A database that no migrator has touched and that holds the given tables. -/
def untouched (s : Schema) : DB := ⟨none, s, false⟩

/-- A fresh database: no bookkeeping table, no application table. -/
def fresh : DB := untouched []

/-- Whether `schema_migrations` holds a record for `version`. -/
def hasRecord (db : DB) (version : String) : Bool :=
  match db.migrations with
  | none => false
  | some rs => rs.any (fun r => r.version == version)

/-- The versions recorded in `schema_migrations`. -/
def versions (db : DB) : Option (List String) :=
  db.migrations.map (fun rs => rs.map (fun r => r.version))

/-- The server running a batch of SQL text on a target schema: the schema the
batch leaves in the session, and the error of the statement that failed, if any.
When a statement fails, the schema returned holds the effects of the statements
before it. -/
abbrev SqlEngine := String → Schema → Schema × Option DbError

/-! ## Environment of one invocation -/

/-- The database calls the migrator issues. -/
inductive Call where
  /-- The statement `CREATE TABLE IF NOT EXISTS schema_migrations`. -/
  | createTable
  /-- The query `SELECT COUNT(*) FROM schema_migrations WHERE version = $1`. -/
  | countVersion
  /-- The call `BeginTx`. -/
  | beginTx
  /-- The schema text, run inside the transaction. -/
  | execSchema
  /-- The statement `INSERT INTO schema_migrations`. -/
  | insertRecord
  /-- The statement `DROP TABLE IF EXISTS messages`. -/
  | dropMessages
  /-- The statement `DELETE FROM schema_migrations WHERE version = $1`. -/
  | deleteRecord
  /-- The call `tx.Commit()`. -/
  | commit
  /-- The query `SELECT EXISTS (... information_schema.tables ...)`. -/
  | tableExists
  /-- The query `SELECT version, applied_at FROM schema_migrations ORDER BY applied_at`. -/
  | selectRecords
  /-- The call `rows.Scan` on the row with the given index. -/
  | scanRow (i : Nat)
  deriving DecidableEq, Repr

/-- What one invocation finds outside the database state: which calls fail and
with what error, the result of reading `db/schema.sql`, and the value of
`NOW()`. -/
structure Env where
  fault : Call → Option DbError
  schemaFile : Except String String
  now : Nat

/-- What an operation of the migrator leaves behind: the error it returns
(`none` is `nil`), the committed database state, the lines written to standard
output and the database calls issued, in order. -/
structure Outcome where
  err : Option GoError
  db : DB
  stdout : List String
  calls : List Call
  deriving DecidableEq, Repr

/-- The one migration the program manages. -/
def migrationName : String := "001_initial_schema"

/-! ## Transactions -/

/-- An open transaction: the committed state it started from and its working
copy. -/
structure Tx where
  snapshot : DB
  work : DB
  deriving DecidableEq, Repr

/-- The call `m.db.BeginTx(ctx, nil)`. -/
def BeginTx (env : Env) (db : DB) : Except DbError Tx :=
  match env.fault .beginTx with
  | some e => .error e
  | none => .ok ⟨db, db⟩

/-- The call `tx.Rollback()`: the committed state is the one the transaction
started from. -/
def Tx.Rollback (tx : Tx) : DB := tx.snapshot

/-- The call `tx.Commit()`: on success the working copy becomes the committed
state. -/
def Tx.Commit (env : Env) (tx : Tx) : Except DbError DB :=
  match env.fault .commit with
  | some e => .error e
  | none => .ok tx.work

/-- The call `tx.ExecContext(ctx, string(schemaContent))`: the engine runs the
text on the working copy. -/
def Tx.execSchema (pg : SqlEngine) (env : Env) (schemaContent : String) (tx : Tx) :
    Tx × Option DbError :=
  match env.fault .execSchema with
  | some e => (tx, some e)
  | none =>
    let r := pg schemaContent tx.work.schema
    (⟨tx.snapshot, ⟨tx.work.migrations, r.1, true⟩⟩, r.2)

/-- The call `tx.ExecContext(ctx, "INSERT INTO schema_migrations (version,
applied_at) VALUES ($1, NOW())", version)`. -/
def Tx.insertRecord (env : Env) (version : String) (tx : Tx) : Except DbError Tx :=
  match env.fault .insertRecord with
  | some e => .error e
  | none =>
    match tx.work.migrations with
    | none => .error (.undefinedTable "schema_migrations")
    | some rs =>
      if rs.any (fun r => r.version == version) then
        .error (.uniqueViolation version)
      else
        .ok ⟨tx.snapshot, ⟨some (rs ++ [⟨version, env.now⟩]), tx.work.schema, tx.work.ddlInEffect⟩⟩

/-- The call `tx.ExecContext(ctx, "DROP TABLE IF EXISTS messages")`. -/
def Tx.dropMessages (pg : SqlEngine) (env : Env) (tx : Tx) : Tx × Option DbError :=
  match env.fault .dropMessages with
  | some e => (tx, some e)
  | none =>
    let r := pg "DROP TABLE IF EXISTS messages" tx.work.schema
    (⟨tx.snapshot, ⟨tx.work.migrations, r.1, false⟩⟩, r.2)

/-- The call `tx.ExecContext(ctx, "DELETE FROM schema_migrations WHERE version =
$1", version)`. -/
def Tx.deleteRecord (env : Env) (version : String) (tx : Tx) : Except DbError Tx :=
  match env.fault .deleteRecord with
  | some e => .error e
  | none =>
    match tx.work.migrations with
    | none => .error (.undefinedTable "schema_migrations")
    | some rs =>
      .ok ⟨tx.snapshot,
        ⟨some (rs.filter (fun r => !(r.version == version))), tx.work.schema, tx.work.ddlInEffect⟩⟩

/-! ## Migrator -/

/-- The method `createMigrationsTable`. -/
def createMigrationsTable (env : Env) (db : DB) : Except DbError DB :=
  match env.fault .createTable with
  | some e => .error e
  | none =>
    match db.migrations with
    | none => .ok ⟨some [], db.schema, db.ddlInEffect⟩
    | some _ => .ok db

/-- The method `isMigrationApplied`: `count > 0`, or the error of the query. -/
def isMigrationApplied (env : Env) (db : DB) (version : String) : Except DbError Bool :=
  match env.fault .countVersion with
  | some e => .error e
  | none =>
    match db.migrations with
    | none => .error (.undefinedTable "schema_migrations")
    | some rs => .ok (decide ((rs.filter (fun r => r.version == version)).length > 0))

/-- The method `Up`. -/
def Up (pg : SqlEngine) (env : Env) (db : DB) : Outcome :=
  match createMigrationsTable env db with
  | .error e =>
    ⟨some (.wrap "failed to create migrations table" (.driver e)), db, [], [.createTable]⟩
  | .ok db1 =>
    match env.schemaFile with
    | .error msg =>
      ⟨some (.wrap "failed to read schema.sql" (.file msg)), db1, [], [.createTable]⟩
    | .ok schemaContent =>
      match isMigrationApplied env db1 migrationName with
      | .error e =>
        ⟨some (.wrap "failed to check migration status" (.driver e)), db1, [],
          [.createTable, .countVersion]⟩
      | .ok true =>
        ⟨none, db1, ["Migration " ++ migrationName ++ " already applied, skipping"],
          [.createTable, .countVersion]⟩
      | .ok false =>
        match BeginTx env db1 with
        | .error e =>
          ⟨some (.wrap "failed to start transaction" (.driver e)), db1, [],
            [.createTable, .countVersion, .beginTx]⟩
        | .ok tx =>
          match tx.execSchema pg env schemaContent with
          | (tx1, some e) =>
            ⟨some (.wrap "failed to execute schema" (.driver e)), tx1.Rollback, [],
              [.createTable, .countVersion, .beginTx, .execSchema]⟩
          | (tx1, none) =>
            match tx1.insertRecord env migrationName with
            | .error e =>
              ⟨some (.wrap "failed to record migration" (.driver e)), tx1.Rollback, [],
                [.createTable, .countVersion, .beginTx, .execSchema, .insertRecord]⟩
            | .ok tx2 =>
              match tx2.Commit env with
              | .error e =>
                ⟨some (.wrap "failed to commit transaction" (.driver e)), tx2.Rollback, [],
                  [.createTable, .countVersion, .beginTx, .execSchema, .insertRecord, .commit]⟩
              | .ok db2 =>
                ⟨none, db2, ["Applied migration: " ++ migrationName],
                  [.createTable, .countVersion, .beginTx, .execSchema, .insertRecord, .commit]⟩

/-- The method `Down`. -/
def Down (pg : SqlEngine) (env : Env) (db : DB) : Outcome :=
  match isMigrationApplied env db migrationName with
  | .error e =>
    ⟨some (.wrap "failed to check migration status" (.driver e)), db, [], [.countVersion]⟩
  | .ok false =>
    ⟨none, db, ["Migration " ++ migrationName ++ " not applied, nothing to rollback"],
      [.countVersion]⟩
  | .ok true =>
    match BeginTx env db with
    | .error e =>
      ⟨some (.wrap "failed to start transaction" (.driver e)), db, [],
        [.countVersion, .beginTx]⟩
    | .ok tx =>
      match tx.dropMessages pg env with
      | (tx1, some e) =>
        ⟨some (.wrap "failed to drop messages table" (.driver e)), tx1.Rollback, [],
          [.countVersion, .beginTx, .dropMessages]⟩
      | (tx1, none) =>
        match tx1.deleteRecord env migrationName with
        | .error e =>
          ⟨some (.wrap "failed to remove migration record" (.driver e)), tx1.Rollback, [],
            [.countVersion, .beginTx, .dropMessages, .deleteRecord]⟩
        | .ok tx2 =>
          match tx2.Commit env with
          | .error e =>
            ⟨some (.wrap "failed to commit transaction" (.driver e)), tx2.Rollback, [],
              [.countVersion, .beginTx, .dropMessages, .deleteRecord, .commit]⟩
          | .ok db2 =>
            ⟨none, db2, ["Rolled back migration: " ++ migrationName],
              [.countVersion, .beginTx, .dropMessages, .deleteRecord, .commit]⟩

/-- The line `Status` prints for one record. -/
def statusRow (r : MigrationRecord) : String :=
  "  " ++ r.version ++ " (applied at: " ++ toString r.applied_at ++ ")"

/-- The existence query of `Status` on `information_schema.tables`. -/
def tableExists (env : Env) (db : DB) : Except DbError Bool :=
  match env.fault .tableExists with
  | some e => .error e
  | none => .ok db.migrations.isSome

/-- The record query of `Status`: all rows, ordered by `applied_at`. -/
def selectRecords (env : Env) (db : DB) : Except DbError (List MigrationRecord) :=
  match env.fault .selectRecords with
  | some e => .error e
  | none =>
    match db.migrations with
    | none => .error (.undefinedTable "schema_migrations")
    | some rs => .ok (rs.insertionSort (fun a b => a.applied_at ≤ b.applied_at))

/-- The loop `for rows.Next()` of `Status`, from the row with index `i` on: the
lines printed, the scans issued, and the error of the scan that failed, if
any. -/
def scanRows (env : Env) : List MigrationRecord → Nat → List String × List Call × Option DbError
  | [], _ => ([], [], none)
  | r :: rest, i =>
    match env.fault (.scanRow i) with
    | some e => ([], [.scanRow i], some e)
    | none =>
      let t := scanRows env rest (i + 1)
      (statusRow r :: t.1, .scanRow i :: t.2.1, t.2.2)

/-- The method `Status`. -/
def Status (env : Env) (db : DB) : Outcome :=
  match tableExists env db with
  | .error e =>
    ⟨some (.wrap "failed to check migrations table" (.driver e)), db, [], [.tableExists]⟩
  | .ok false =>
    ⟨none, db, ["Migrations table does not exist. No migrations have been run."],
      [.tableExists]⟩
  | .ok true =>
    match selectRecords env db with
    | .error e =>
      ⟨some (.wrap "failed to query migrations" (.driver e)), db, [],
        [.tableExists, .selectRecords]⟩
    | .ok rows =>
      match scanRows env rows 0 with
      | (lines, scans, some e) =>
        ⟨some (.wrap "failed to scan migration row" (.driver e)), db,
          "Applied migrations:" :: lines, [.tableExists, .selectRecords] ++ scans⟩
      | (lines, scans, none) =>
        let hasRows := !rows.isEmpty
        ⟨none, db,
          "Applied migrations:" :: lines ++
            (if !hasRows then ["  No migrations have been applied."] else []),
          [.tableExists, .selectRecords] ++ scans⟩

/-! ## The command -/

/-- What the process is started with: `os.Args`, the value of `DB_URL` (empty
when unset), the errors of `sql.Open` and `db.Ping`, and the environment of the
operation the command runs. -/
structure Process where
  args : List String
  dbURL : String
  openErr : Option DbError
  pingErr : Option DbError
  env : Env

/-- State of the process when it ends: exit status, standard output, the
messages of the logger, the committed database state and the database calls the
migrator issued. -/
structure Exit where
  code : Nat
  stdout : List String
  log : List String
  db : DB
  calls : List Call
  deriving DecidableEq, Repr

/-- The type `Migrator`: a handle on the database it was opened on. -/
structure Migrator where
  dbURL : String
  deriving DecidableEq, Repr

/-- The function `NewMigrator`. -/
def NewMigrator (p : Process) (dbURL : String) : Except GoError Migrator :=
  match p.openErr with
  | some e => .error (.wrap "failed to connect to database" (.driver e))
  | none =>
    match p.pingErr with
    | some e => .error (.wrap "failed to ping database" (.driver e))
    | none => .ok ⟨dbURL⟩

/-- The usage text of `main`. -/
def usage : List String :=
  ["Usage: go run cmd/migrate/main.go [up|down|status]",
   "Environment variables required:",
   "  DB_URL - PostgreSQL connection string"]

/-- Exit of a command that ran a migrator operation: `log.Fatal` with the given
label when the operation returned an error, otherwise the lines of the operation
followed by the given closing lines. -/
def finish (label : String) (closing : List String) (r : Outcome) : Exit :=
  match r.err with
  | some err => ⟨1, r.stdout, [label ++ err.Error], r.db, r.calls⟩
  | none => ⟨0, r.stdout ++ closing, [], r.db, r.calls⟩

/-- The function `main` of the migrate command. -/
def main (pg : SqlEngine) (p : Process) (db : DB) : Exit :=
  match p.args with
  | [] => ⟨1, usage, [], db, []⟩
  | [_] => ⟨1, usage, [], db, []⟩
  | _ :: command :: _ =>
    if p.dbURL = "" then
      ⟨1, [], ["DB_URL environment variable is required"], db, []⟩
    else
      match NewMigrator p p.dbURL with
      | .error err => ⟨1, [], ["Failed to create migrator:" ++ err.Error], db, []⟩
      | .ok _ =>
        if command = "up" then
          finish "Migration up failed:" ["Migration completed successfully!"] (Up pg p.env db)
        else if command = "down" then
          finish "Migration down failed:" ["Migration rollback completed!"] (Down pg p.env db)
        else if command = "status" then
          finish "Failed to get migration status:" [] (Status p.env db)
        else
          ⟨1, ["Unknown command: " ++ command, "Available commands: up, down, status"], [],
            db, []⟩

/-- The operations of the migrator that change the database. -/
inductive Op where
  | up
  | down
  deriving DecidableEq, Repr

/-- One invocation of `Up` or `Down` in its own environment. -/
def invoke (pg : SqlEngine) (db : DB) (i : Op × Env) : DB :=
  match i.1 with
  | .up => (Up pg i.2 db).db
  | .down => (Down pg i.2 db).db

/-- The database after a sequence of invocations. -/
def run (pg : SqlEngine) (db : DB) (is : List (Op × Env)) : DB :=
  is.foldl (invoke pg) db

/-! ## Concrete instances -/

/-- An environment in which no call fails. -/
def quiet (schemaFile : Except String String) (now : Nat) : Env :=
  ⟨fun _ => none, schemaFile, now⟩

/-- An environment in which exactly the given call fails. -/
def failing (c : Call) (schemaFile : Except String String) (now : Nat) : Env :=
  ⟨fun d => if d = c then some (.connection "connection reset by peer") else none,
    schemaFile, now⟩

/-- The process of the command line `migrate <command>` with `DB_URL` set and the
database reachable. -/
def cli (command : String) (env : Env) : Process :=
  ⟨["migrate", command], "postgres://localhost:5432/app", none, none, env⟩

/-- The step of the transaction of `Down` on `db` that fails, with its error:
the `DROP TABLE`, or after it the `DELETE`, or after both the commit. -/
def downFailsAt (pg : SqlEngine) (env : Env) (db : DB) (c : Call) (e : DbError) : Prop :=
  match c with
  | .dropMessages => (Tx.dropMessages pg env ⟨db, db⟩).2 = some e
  | .deleteRecord =>
    (Tx.dropMessages pg env ⟨db, db⟩).2 = none ∧
      Tx.deleteRecord env migrationName (Tx.dropMessages pg env ⟨db, db⟩).1 = .error e
  | .commit =>
    (Tx.dropMessages pg env ⟨db, db⟩).2 = none ∧
      (Tx.deleteRecord env migrationName (Tx.dropMessages pg env ⟨db, db⟩).1).isOk = true ∧
      env.fault .commit = some e
  | _ => False

/-- Whether the schema has a table of that name. -/
def hasTable (s : Schema) (name : String) : Bool :=
  s.any (fun t => t.name == name)

/-- Effect of `CREATE TABLE IF NOT EXISTS name (...)`. -/
def createIfNotExists (name : String) (s : Schema) : Schema :=
  if hasTable s name then s else s ++ [⟨name, []⟩]

/-- Effect of `DROP TABLE IF EXISTS name`. -/
def dropIfExists (name : String) (s : Schema) : Schema :=
  s.filter (fun t => !(t.name == name))

/-- Effect of `INSERT INTO name VALUES (row)` on an existing table. -/
def insertRow (name : String) (row : String) (s : Schema) : Schema :=
  s.map (fun t => if t.name == name then ⟨t.name, t.rows ++ [row]⟩ else t)

/-- The server on a few batches of SQL text, with the meaning PostgreSQL gives
them; any other text is rejected. -/
def pgFragment : SqlEngine := fun text s =>
  if text = "DROP TABLE IF EXISTS messages" then
    (dropIfExists "messages" s, none)
  else if text = "CREATE TABLE IF NOT EXISTS users (id INT)" then
    (createIfNotExists "users" s, none)
  else if text = "CREATE TABLE messages (id SERIAL PRIMARY KEY, content TEXT NOT NULL)" then
    if hasTable s "messages" then
      (s, some (.statement "relation \"messages\" already exists"))
    else
      (s ++ [⟨"messages", []⟩], none)
  else if text = "CREATE TABLE messages (id INT); CREATE TABLE users (id INT)" then
    if hasTable s "messages" then
      (s, some (.statement "relation \"messages\" already exists"))
    else if hasTable s "users" then
      (s ++ [⟨"messages", []⟩], some (.statement "relation \"users\" already exists"))
    else
      (s ++ [⟨"messages", []⟩, ⟨"users", []⟩], none)
  else if text =
      "CREATE TABLE messages (id INT); CREATE TABLE IF NOT EXISTS audit (note TEXT); INSERT INTO audit VALUES ('up')"
      then
    if hasTable s "messages" then
      (s, some (.statement "relation \"messages\" already exists"))
    else
      (insertRow "audit" "up" (createIfNotExists "audit" (s ++ [⟨"messages", []⟩])), none)
  else
    (s, some (.statement "syntax error"))

/-! ## States the operations leave -/

/-- The database `createMigrationsTable` leaves on success: the bookkeeping
table exists, with the rows it had. -/
def ensured (db : DB) : DB :=
  ⟨some (db.migrations.getD []), db.schema, db.ddlInEffect⟩

/-- The database `Up` commits when the schema text has effect `s` on the target
schema: the record of the migration is added. -/
def applied (env : Env) (db : DB) (s : Schema) : DB :=
  ⟨some (db.migrations.getD [] ++ [⟨migrationName, env.now⟩]), s, true⟩

/-- The database `Down` commits when the reverse action has effect `s` on the
target schema: the records of the migration are removed. -/
def reversed (db : DB) (s : Schema) : DB :=
  ⟨some ((db.migrations.getD []).filter (fun r => !(r.version == migrationName))), s, false⟩


/-! ## Lemmas on the database calls -/

theorem filter_length_pos_eq_any (rs : List MigrationRecord) (v : String) :
    decide ((rs.filter (fun r => r.version == v)).length > 0) =
      rs.any (fun r => r.version == v) := by
  induction rs with
  | nil => simp
  | cons r rest ih =>
    by_cases h : r.version = v <;> simp_all [List.filter_cons]

theorem isMigrationApplied_ok (env : Env) (db : DB) (v : String) (b : Bool)
    (h : isMigrationApplied env db v = .ok b) :
    env.fault .countVersion = none ∧ db.migrations.isSome = true ∧ hasRecord db v = b := by
  unfold isMigrationApplied at h
  unfold hasRecord
  split at h
  · cases h
  · split at h
    · cases h
    · rw [filter_length_pos_eq_any] at h
      simp_all

theorem isMigrationApplied_eq (env : Env) (db : DB) (v : String)
    (hf : env.fault .countVersion = none) (hs : db.migrations.isSome = true) :
    isMigrationApplied env db v = .ok (hasRecord db v) := by
  unfold isMigrationApplied hasRecord
  rw [hf]
  cases hm : db.migrations with
  | none => simp [hm] at hs
  | some rs => simp only [filter_length_pos_eq_any]

theorem hasRecord_isSome (db : DB) (v : String) (h : hasRecord db v = true) :
    db.migrations.isSome = true := by
  unfold hasRecord at h
  cases hm : db.migrations with
  | none => simp [hm] at h
  | some rs => rfl

theorem createMigrationsTable_ok (env : Env) (db db1 : DB)
    (h : createMigrationsTable env db = .ok db1) :
    env.fault .createTable = none ∧ db1 = ensured db := by
  unfold createMigrationsTable at h
  unfold ensured
  split at h
  · cases h
  · rename_i hf
    refine ⟨hf, ?_⟩
    split at h
    · rename_i hm
      cases h
      simp [hm]
    · rename_i rs hm
      cases h
      cases db
      simp_all

theorem createMigrationsTable_of_isSome (env : Env) (db : DB)
    (hf : env.fault .createTable = none) (hs : db.migrations.isSome = true) :
    createMigrationsTable env db = .ok db := by
  unfold createMigrationsTable
  rw [hf]
  cases hm : db.migrations with
  | none => simp [hm] at hs
  | some rs => rfl

theorem hasRecord_ensured (db : DB) (v : String) :
    hasRecord (ensured db) v = hasRecord db v := by
  unfold hasRecord ensured
  cases db.migrations <;> simp

theorem BeginTx_ok (env : Env) (db : DB) (tx : Tx) (h : BeginTx env db = .ok tx) :
    env.fault .beginTx = none ∧ tx = ⟨db, db⟩ := by
  unfold BeginTx at h
  split at h
  · cases h
  · rename_i hf
    cases h
    exact ⟨hf, rfl⟩

theorem Commit_ok (env : Env) (tx : Tx) (db : DB) (h : tx.Commit env = .ok db) :
    env.fault .commit = none ∧ db = tx.work := by
  unfold Tx.Commit at h
  split at h
  · cases h
  · rename_i hf
    cases h
    exact ⟨hf, rfl⟩

theorem execSchema_snapshot (pg : SqlEngine) (env : Env) (text : String) (tx : Tx) :
    (tx.execSchema pg env text).1.snapshot = tx.snapshot := by
  unfold Tx.execSchema
  split <;> rfl

theorem execSchema_ok (pg : SqlEngine) (env : Env) (text : String) (tx tx1 : Tx)
    (h : tx.execSchema pg env text = (tx1, none)) :
    env.fault .execSchema = none ∧ (pg text tx.work.schema).2 = none ∧
      tx1 = ⟨tx.snapshot, ⟨tx.work.migrations, (pg text tx.work.schema).1, true⟩⟩ := by
  unfold Tx.execSchema at h
  split at h
  · cases h
  · rename_i hf
    simp only [Prod.mk.injEq] at h
    exact ⟨hf, h.2, h.1.symm⟩

theorem dropMessages_snapshot (pg : SqlEngine) (env : Env) (tx : Tx) :
    (tx.dropMessages pg env).1.snapshot = tx.snapshot := by
  unfold Tx.dropMessages
  split <;> rfl

theorem dropMessages_ok (pg : SqlEngine) (env : Env) (tx tx1 : Tx)
    (h : tx.dropMessages pg env = (tx1, none)) :
    env.fault .dropMessages = none ∧
      (pg "DROP TABLE IF EXISTS messages" tx.work.schema).2 = none ∧
      tx1 = ⟨tx.snapshot,
        ⟨tx.work.migrations, (pg "DROP TABLE IF EXISTS messages" tx.work.schema).1, false⟩⟩ := by
  unfold Tx.dropMessages at h
  split at h
  · cases h
  · rename_i hf
    simp only [Prod.mk.injEq] at h
    exact ⟨hf, h.2, h.1.symm⟩

theorem insertRecord_ok (env : Env) (v : String) (tx tx2 : Tx)
    (h : tx.insertRecord env v = .ok tx2) :
    env.fault .insertRecord = none ∧
      ∃ rs, tx.work.migrations = some rs ∧ rs.any (fun r => r.version == v) = false ∧
        tx2 = ⟨tx.snapshot,
          ⟨some (rs ++ [⟨v, env.now⟩]), tx.work.schema, tx.work.ddlInEffect⟩⟩ := by
  unfold Tx.insertRecord at h
  split at h
  · cases h
  · rename_i hf
    refine ⟨hf, ?_⟩
    split at h
    · cases h
    · rename_i rs hm
      split at h
      · cases h
      · rename_i hany
        cases h
        exact ⟨rs, hm, by simpa using hany, rfl⟩

theorem insertRecord_snapshot (env : Env) (v : String) (tx tx2 : Tx)
    (h : tx.insertRecord env v = .ok tx2) : tx2.snapshot = tx.snapshot := by
  obtain ⟨_, rs, _, _, h3⟩ := insertRecord_ok env v tx tx2 h
  rw [h3]

theorem deleteRecord_ok (env : Env) (v : String) (tx tx2 : Tx)
    (h : tx.deleteRecord env v = .ok tx2) :
    env.fault .deleteRecord = none ∧
      ∃ rs, tx.work.migrations = some rs ∧
        tx2 = ⟨tx.snapshot,
          ⟨some (rs.filter (fun r => !(r.version == v))), tx.work.schema,
            tx.work.ddlInEffect⟩⟩ := by
  unfold Tx.deleteRecord at h
  split at h
  · cases h
  · rename_i hf
    refine ⟨hf, ?_⟩
    split at h
    · cases h
    · rename_i rs hm
      cases h
      exact ⟨rs, hm, rfl⟩

theorem any_filter_not (rs : List MigrationRecord) (v : String) :
    (rs.filter (fun r => !(r.version == v))).any (fun r => r.version == v) = false := by
  induction rs with
  | nil => rfl
  | cons r rest ih =>
    by_cases h : r.version = v <;> simp_all [List.filter_cons]

theorem filter_not_of_any_false (rs : List MigrationRecord) (v : String)
    (h : rs.any (fun r => r.version == v) = false) :
    rs.filter (fun r => !(r.version == v)) = rs := by
  induction rs with
  | nil => rfl
  | cons r rest ih =>
    simp only [List.any_cons, Bool.or_eq_false_iff] at h
    simp [List.filter_cons, h.1, ih h.2]

theorem any_append_singleton (rs : List MigrationRecord) (v : String) (t : Nat) :
    (rs ++ [(⟨v, t⟩ : MigrationRecord)]).any (fun r => r.version == v) = true := by
  simp

/-! ## The outcomes of `Up` and `Down` -/

theorem ensured_of_isSome (db : DB) (h : db.migrations.isSome = true) : ensured db = db := by
  unfold ensured
  cases db with
  | mk m s g =>
    cases m with
    | none => simp at h
    | some rs => rfl

/-- A successful `Up` either found the record and changed nothing, or found no
record, ran the schema text without error and committed it with the record. -/
theorem Up_success (pg : SqlEngine) (env : Env) (db : DB) (h : (Up pg env db).err = none) :
    (hasRecord db migrationName = true ∧
      Up pg env db = ⟨none, db, ["Migration " ++ migrationName ++ " already applied, skipping"],
        [.createTable, .countVersion]⟩) ∨
    (hasRecord db migrationName = false ∧ ∃ text, env.schemaFile = .ok text ∧
      (pg text db.schema).2 = none ∧
      Up pg env db = ⟨none, applied env db (pg text db.schema).1,
        ["Applied migration: " ++ migrationName],
        [.createTable, .countVersion, .beginTx, .execSchema, .insertRecord, .commit]⟩) := by
  cases hct : createMigrationsTable env db with
  | error e => simp [Up, hct] at h
  | ok db1 =>
    obtain ⟨_, hdb1⟩ := createMigrationsTable_ok env db db1 hct
    subst hdb1
    cases hfile : env.schemaFile with
    | error msg => simp [Up, hct, hfile] at h
    | ok text =>
      cases happ : isMigrationApplied env (ensured db) migrationName with
      | error e => simp [Up, hct, hfile, happ] at h
      | ok b =>
        have hrec := (isMigrationApplied_ok _ _ _ _ happ).2.2
        rw [hasRecord_ensured] at hrec
        cases b with
        | true =>
          left
          have hd := ensured_of_isSome db (hasRecord_isSome db _ hrec)
          refine ⟨hrec, ?_⟩
          simp only [Up, hct, hfile, happ]
          rw [hd]
        | false =>
          right
          cases hbegin : BeginTx env (ensured db) with
          | error e => simp [Up, hct, hfile, happ, hbegin] at h
          | ok tx =>
            obtain ⟨_, htx⟩ := BeginTx_ok env _ tx hbegin
            cases hexec : tx.execSchema pg env text with
            | mk tx1 oe =>
              cases oe with
              | some e => simp [Up, hct, hfile, happ, hbegin, hexec] at h
              | none =>
                obtain ⟨_, hpg, htx1⟩ := execSchema_ok pg env text tx tx1 hexec
                cases hins : tx1.insertRecord env migrationName with
                | error e => simp [Up, hct, hfile, happ, hbegin, hexec, hins] at h
                | ok tx2 =>
                  obtain ⟨_, rs, hrs, _, htx2⟩ :=
                    insertRecord_ok env migrationName tx1 tx2 hins
                  cases hcommit : tx2.Commit env with
                  | error e =>
                    simp [Up, hct, hfile, happ, hbegin, hexec, hins, hcommit] at h
                  | ok db2 =>
                    obtain ⟨_, hdb2⟩ := Commit_ok env tx2 db2 hcommit
                    refine ⟨hrec, text, rfl, ?_, ?_⟩
                    · rw [htx] at hpg
                      exact hpg
                    · rw [htx1, htx] at hrs
                      simp only [ensured, Option.some.injEq] at hrs
                      subst hrs
                      simp only [Up, hct, hfile, happ, hbegin, hexec, hins, hcommit]
                      rw [hdb2, htx2, htx1, htx]
                      rfl

/-- A failed `Up` leaves the database as it was, except that the bookkeeping
table may have been created. -/
theorem Up_failure (pg : SqlEngine) (env : Env) (db : DB) (h : (Up pg env db).err ≠ none) :
    (Up pg env db).db = db ∨ (Up pg env db).db = ensured db := by
  cases hct : createMigrationsTable env db with
  | error e => left; simp [Up, hct]
  | ok db1 =>
    obtain ⟨_, hdb1⟩ := createMigrationsTable_ok env db db1 hct
    subst hdb1
    right
    cases hfile : env.schemaFile with
    | error msg => simp [Up, hct, hfile]
    | ok text =>
      cases happ : isMigrationApplied env (ensured db) migrationName with
      | error e => simp [Up, hct, hfile, happ]
      | ok b =>
        cases b with
        | true => simp [Up, hct, hfile, happ] at h
        | false =>
          cases hbegin : BeginTx env (ensured db) with
          | error e => simp [Up, hct, hfile, happ, hbegin]
          | ok tx =>
            obtain ⟨_, htx⟩ := BeginTx_ok env _ tx hbegin
            have hs1 := execSchema_snapshot pg env text tx
            cases hexec : tx.execSchema pg env text with
            | mk tx1 oe =>
              rw [hexec] at hs1
              cases oe with
              | some e =>
                simp only [Up, hct, hfile, happ, hbegin, hexec, Tx.Rollback]
                rw [hs1, htx]
              | none =>
                cases hins : tx1.insertRecord env migrationName with
                | error e =>
                  simp only [Up, hct, hfile, happ, hbegin, hexec, hins, Tx.Rollback]
                  rw [hs1, htx]
                | ok tx2 =>
                  have hs2 := insertRecord_snapshot env _ tx1 tx2 hins
                  cases hcommit : tx2.Commit env with
                  | error e =>
                    simp only [Up, hct, hfile, happ, hbegin, hexec, hins, hcommit, Tx.Rollback]
                    rw [hs2, hs1, htx]
                  | ok db2 =>
                    simp [Up, hct, hfile, happ, hbegin, hexec, hins, hcommit] at h

/-- A successful `Down` either found the bookkeeping table without the record
and changed nothing, or found the record, ran the reverse action without error
and committed it with the removal of the record. -/
theorem Down_success (pg : SqlEngine) (env : Env) (db : DB) (h : (Down pg env db).err = none) :
    (hasRecord db migrationName = false ∧ db.migrations.isSome = true ∧
      Down pg env db = ⟨none, db,
        ["Migration " ++ migrationName ++ " not applied, nothing to rollback"],
        [.countVersion]⟩) ∨
    (hasRecord db migrationName = true ∧
      (pg "DROP TABLE IF EXISTS messages" db.schema).2 = none ∧
      Down pg env db = ⟨none, reversed db (pg "DROP TABLE IF EXISTS messages" db.schema).1,
        ["Rolled back migration: " ++ migrationName],
        [.countVersion, .beginTx, .dropMessages, .deleteRecord, .commit]⟩) := by
  cases happ : isMigrationApplied env db migrationName with
  | error e => simp [Down, happ] at h
  | ok b =>
    obtain ⟨_, hsome, hrec⟩ := isMigrationApplied_ok _ _ _ _ happ
    cases b with
    | false =>
      left
      exact ⟨hrec, hsome, by simp only [Down, happ]⟩
    | true =>
      right
      cases hbegin : BeginTx env db with
      | error e => simp [Down, happ, hbegin] at h
      | ok tx =>
        obtain ⟨_, htx⟩ := BeginTx_ok env _ tx hbegin
        cases hdrop : tx.dropMessages pg env with
        | mk tx1 oe =>
          cases oe with
          | some e => simp [Down, happ, hbegin, hdrop] at h
          | none =>
            obtain ⟨_, hpg, htx1⟩ := dropMessages_ok pg env tx tx1 hdrop
            cases hdel : tx1.deleteRecord env migrationName with
            | error e => simp [Down, happ, hbegin, hdrop, hdel] at h
            | ok tx2 =>
              obtain ⟨_, rs, hrs, htx2⟩ := deleteRecord_ok env migrationName tx1 tx2 hdel
              cases hcommit : tx2.Commit env with
              | error e => simp [Down, happ, hbegin, hdrop, hdel, hcommit] at h
              | ok db2 =>
                obtain ⟨_, hdb2⟩ := Commit_ok env tx2 db2 hcommit
                refine ⟨hrec, ?_, ?_⟩
                · rw [htx] at hpg
                  exact hpg
                · rw [htx1, htx] at hrs
                  simp only at hrs
                  simp only [Down, happ, hbegin, hdrop, hdel, hcommit]
                  rw [hdb2, htx2, htx1, htx]
                  simp only [reversed, hrs, Option.getD_some]

/-- A failed `Down` leaves the database as it was. -/
theorem Down_failure (pg : SqlEngine) (env : Env) (db : DB) (h : (Down pg env db).err ≠ none) :
    (Down pg env db).db = db := by
  cases happ : isMigrationApplied env db migrationName with
  | error e => simp [Down, happ]
  | ok b =>
    cases b with
    | false => simp [Down, happ]
    | true =>
      cases hbegin : BeginTx env db with
      | error e => simp [Down, happ, hbegin]
      | ok tx =>
        obtain ⟨_, htx⟩ := BeginTx_ok env _ tx hbegin
        have hs1 := dropMessages_snapshot pg env tx
        cases hdrop : tx.dropMessages pg env with
        | mk tx1 oe =>
          rw [hdrop] at hs1
          cases oe with
          | some e =>
            simp only [Down, happ, hbegin, hdrop, Tx.Rollback]
            rw [hs1, htx]
          | none =>
            cases hdel : tx1.deleteRecord env migrationName with
            | error e =>
              simp only [Down, happ, hbegin, hdrop, hdel, Tx.Rollback]
              rw [hs1, htx]
            | ok tx2 =>
              obtain ⟨_, rs, _, htx2⟩ := deleteRecord_ok env migrationName tx1 tx2 hdel
              cases hcommit : tx2.Commit env with
              | error e =>
                simp only [Down, happ, hbegin, hdrop, hdel, hcommit, Tx.Rollback]
                rw [htx2]
                simp only
                rw [hs1, htx]
              | ok db2 => simp [Down, happ, hbegin, hdrop, hdel, hcommit] at h

theorem hasRecord_applied (env : Env) (db : DB) (s : Schema) :
    hasRecord (applied env db s) migrationName = true := by
  simp [hasRecord, applied]

theorem hasRecord_reversed (db : DB) (s : Schema) :
    hasRecord (reversed db s) migrationName = false := by
  simp only [hasRecord, reversed]
  exact any_filter_not _ _

/-- When no call fails, the file is read, no record exists and the server runs
the text without error, `Up` applies the migration. -/
theorem Up_eq_applied (pg : SqlEngine) (env : Env) (db : DB) (text : String)
    (hf : ∀ c, env.fault c = none) (hfile : env.schemaFile = .ok text)
    (hrec : hasRecord db migrationName = false) (hpg : (pg text db.schema).2 = none) :
    Up pg env db = ⟨none, applied env db (pg text db.schema).1,
      ["Applied migration: " ++ migrationName],
      [.createTable, .countVersion, .beginTx, .execSchema, .insertRecord, .commit]⟩ := by
  have hct : createMigrationsTable env db = .ok (ensured db) := by
    unfold createMigrationsTable ensured
    rw [hf]
    cases db with
    | mk m s g => cases m <;> rfl
  have happ : isMigrationApplied env (ensured db) migrationName = .ok false := by
    rw [isMigrationApplied_eq env (ensured db) _ (hf _) rfl, hasRecord_ensured, hrec]
  have hany : ((db.migrations.getD []).any fun r => r.version == migrationName) = false := by
    unfold hasRecord at hrec
    cases hm : db.migrations with
    | none => rfl
    | some rs => simpa [hm] using hrec
  simp only [Up, hct, hfile, happ]
  simp only [BeginTx, Tx.execSchema, Tx.insertRecord, Tx.Commit, hf, hpg, ensured, hany, applied]
  simp

/-- When no call fails, the record exists and the server runs the reverse action
without error, `Down` reverses the migration. -/
theorem Down_eq_reversed (pg : SqlEngine) (env : Env) (db : DB)
    (hf : ∀ c, env.fault c = none) (hrec : hasRecord db migrationName = true)
    (hpg : (pg "DROP TABLE IF EXISTS messages" db.schema).2 = none) :
    Down pg env db = ⟨none, reversed db (pg "DROP TABLE IF EXISTS messages" db.schema).1,
      ["Rolled back migration: " ++ migrationName],
      [.countVersion, .beginTx, .dropMessages, .deleteRecord, .commit]⟩ := by
  have hsome := hasRecord_isSome db _ hrec
  have happ : isMigrationApplied env db migrationName = .ok true := by
    rw [isMigrationApplied_eq env _ _ (hf _) hsome, hrec]
  cases hm : db.migrations with
  | none => simp [hm] at hsome
  | some rs =>
    simp only [Down, happ, BeginTx, Tx.dropMessages, Tx.deleteRecord, Tx.Commit, hf, hpg, hm,
      reversed, Option.getD_some]

/-! ## Idempotence of `Up` -/

/-- C1: when `Up` succeeds twice in succession, the second run leaves the
database (target schema and `schema_migrations`) as the first run left it, and
its only database calls are the `CREATE TABLE IF NOT EXISTS` of the bookkeeping
table and the count query: it begins no transaction and does not execute the
schema text. The second run may see any schema file and any clock. -/
theorem Up_idempotent (pg : SqlEngine) (env1 env2 : Env) (db : DB)
    (h1 : (Up pg env1 db).err = none)
    (h2 : (Up pg env2 (Up pg env1 db).db).err = none) :
    (Up pg env2 (Up pg env1 db).db).db = (Up pg env1 db).db ∧
      (Up pg env2 (Up pg env1 db).db).calls = [.createTable, .countVersion] ∧
      Call.beginTx ∉ (Up pg env2 (Up pg env1 db).db).calls ∧
      Call.execSchema ∉ (Up pg env2 (Up pg env1 db).db).calls := by
  have hrec : hasRecord (Up pg env1 db).db migrationName = true := by
    rcases Up_success pg env1 db h1 with ⟨hr, hu⟩ | ⟨_, text, _, _, hu⟩
    · rw [hu]; exact hr
    · rw [hu]; exact hasRecord_applied _ _ _
  rcases Up_success pg env2 _ h2 with ⟨_, hu⟩ | ⟨hr, _⟩
  · rw [hu]
    simp
  · rw [hrec] at hr
    cases hr

theorem Up_idempotent_witness :
    (Up pgFragment (quiet (.ok "CREATE TABLE IF NOT EXISTS users (id INT)") 5) fresh).db =
        ⟨some [⟨"001_initial_schema", 5⟩], [⟨"users", []⟩], true⟩ ∧
      (Up pgFragment (quiet (.ok "CREATE TABLE IF NOT EXISTS users (id INT)") 9)
        (Up pgFragment (quiet (.ok "CREATE TABLE IF NOT EXISTS users (id INT)") 5) fresh).db).db =
        ⟨some [⟨"001_initial_schema", 5⟩], [⟨"users", []⟩], true⟩ ∧
      (Up pgFragment (quiet (.ok "CREATE TABLE IF NOT EXISTS users (id INT)") 9)
        (Up pgFragment (quiet (.ok "CREATE TABLE IF NOT EXISTS users (id INT)") 5) fresh).db).calls =
        [.createTable, .countVersion] :=
  ⟨by decide,
    (Up_idempotent pgFragment (quiet (.ok "CREATE TABLE IF NOT EXISTS users (id INT)") 5)
      (quiet (.ok "CREATE TABLE IF NOT EXISTS users (id INT)") 9) fresh
      (by decide) (by decide)).1.trans (by decide),
    (Up_idempotent pgFragment (quiet (.ok "CREATE TABLE IF NOT EXISTS users (id INT)") 5)
      (quiet (.ok "CREATE TABLE IF NOT EXISTS users (id INT)") 9) fresh
      (by decide) (by decide)).2.1⟩

/-! ## `Down` on a database without the bookkeeping table -/

/-- C2: on a database whose bookkeeping table was never created no record of
the migration exists, yet `Down` returns an error in every environment and with
every engine: the count query names a table that does not exist. The database is
left unchanged. When no call fails, the error is the wrapped
"relation does not exist" error of the count query. -/
theorem Down_without_table_fails (pg : SqlEngine) (env : Env) (s : Schema)
    (schemaFile : Except String String) (now : Nat) :
    hasRecord (untouched s) migrationName = false ∧
      (Down pg env (untouched s)).err ≠ none ∧
      (Down pg env (untouched s)).db = untouched s ∧
      (Down pg env (untouched s)).calls = [.countVersion] ∧
      Down pg (quiet schemaFile now) fresh =
        ⟨some (.wrap "failed to check migration status"
          (.driver (.undefinedTable "schema_migrations"))), fresh, [], [.countVersion]⟩ := by
  refine ⟨rfl, ?_, ?_, ?_, rfl⟩
  all_goals
    cases hf : env.fault .countVersion <;>
      simp [Down, isMigrationApplied, untouched, hf]

/-! ## Atomicity of `Up` -/

/-- C3: in a state without the record of the migration, when the schema text is
read and the transaction of `Up` fails, at the schema text (by a fault or by an
error of the server on any statement of the batch, whatever effects the earlier
statements had in the session), at the INSERT of the record, or at the commit,
then `Up` returns an error, the committed database is the one
`createMigrationsTable` left, no record of the migration is present, and the
target schema is what it was before the call. -/
theorem Up_atomic (pg : SqlEngine) (env : Env) (db : DB) (text : String)
    (hrec : hasRecord db migrationName = false)
    (hfile : env.schemaFile = .ok text)
    (hfail : (Tx.execSchema pg env text ⟨ensured db, ensured db⟩).2 ≠ none ∨
      (∃ e, Tx.insertRecord env migrationName
        (Tx.execSchema pg env text ⟨ensured db, ensured db⟩).1 = .error e) ∨
      env.fault .commit ≠ none) :
    (Up pg env db).err ≠ none ∧
      hasRecord (Up pg env db).db migrationName = false ∧
      (Up pg env db).db.schema = db.schema ∧
      (Up pg env db).db.ddlInEffect = db.ddlInEffect ∧
      ((Up pg env db).db = db ∨ (Up pg env db).db = ensured db) := by
  have herr : (Up pg env db).err ≠ none := by
    intro hnone
    rcases Up_success pg env db hnone with ⟨hr, _⟩ | ⟨_, text1, hfile1, hpg, hu⟩
    · rw [hrec] at hr; cases hr
    · rw [hfile] at hfile1
      cases hfile1
      cases hct : createMigrationsTable env db with
      | error e => simp [Up, hct] at hnone
      | ok db1 =>
        obtain ⟨_, hdb1⟩ := createMigrationsTable_ok env db db1 hct
        subst hdb1
        cases happ : isMigrationApplied env (ensured db) migrationName with
        | error e => simp [Up, hct, hfile, happ] at hnone
        | ok b =>
          cases b with
          | true =>
            have := (isMigrationApplied_ok _ _ _ _ happ).2.2
            rw [hasRecord_ensured, hrec] at this
            cases this
          | false =>
            cases hbegin : BeginTx env (ensured db) with
            | error e => simp [Up, hct, hfile, happ, hbegin] at hnone
            | ok tx =>
              obtain ⟨_, htx⟩ := BeginTx_ok env _ tx hbegin
              subst htx
              cases hexec : Tx.execSchema pg env text ⟨ensured db, ensured db⟩ with
              | mk tx1 oe =>
                cases oe with
                | some e => simp [Up, hct, hfile, happ, hbegin, hexec] at hnone
                | none =>
                  cases hins : tx1.insertRecord env migrationName with
                  | error e => simp [Up, hct, hfile, happ, hbegin, hexec, hins] at hnone
                  | ok tx2 =>
                    cases hcommit : tx2.Commit env with
                    | error e =>
                      simp [Up, hct, hfile, happ, hbegin, hexec, hins, hcommit] at hnone
                    | ok db2 =>
                      obtain ⟨hcf, _⟩ := Commit_ok env tx2 db2 hcommit
                      rw [hexec] at hfail
                      simp [hins, hcf] at hfail
  refine ⟨herr, ?_⟩
  rcases Up_failure pg env db herr with h | h
  · rw [h]; exact ⟨hrec, rfl, rfl, Or.inl rfl⟩
  · rw [h]; exact ⟨by rw [hasRecord_ensured]; exact hrec, rfl, rfl, Or.inr rfl⟩

theorem Up_atomic_witness :
    (Up pgFragment (quiet (.ok "CREATE TABLE messages (id INT); CREATE TABLE users (id INT)") 5)
        (untouched [⟨"users", ["u1"]⟩])).err =
        some (.wrap "failed to execute schema"
          (.driver (.statement "relation \"users\" already exists"))) ∧
      (Up pgFragment (quiet (.ok "CREATE TABLE messages (id INT); CREATE TABLE users (id INT)") 5)
        (untouched [⟨"users", ["u1"]⟩])).db.schema = [⟨"users", ["u1"]⟩] ∧
      hasRecord (Up pgFragment
        (quiet (.ok "CREATE TABLE messages (id INT); CREATE TABLE users (id INT)") 5)
        (untouched [⟨"users", ["u1"]⟩])).db migrationName = false :=
  have h := Up_atomic pgFragment
    (quiet (.ok "CREATE TABLE messages (id INT); CREATE TABLE users (id INT)") 5)
    (untouched [⟨"users", ["u1"]⟩])
    "CREATE TABLE messages (id INT); CREATE TABLE users (id INT)" (by decide) rfl
    (Or.inl (by decide))
  ⟨by decide, h.2.2.1, h.2.1⟩

/-! ## Round trip -/

/-- C4, counterexample: the round trip fails on the code for schema texts the
fixed reverse action `DROP TABLE IF EXISTS messages` does not undo.
First, from a database that already holds a table `messages` and was never
migrated, with a schema text that creates `users`: `Up`, `Down`, `Up` all
succeed, a single `Up` leaves the tables `messages` and `users`, the sequence
leaves `users` alone.
Second, from a fresh database, with a schema text that creates `messages` and
`audit` and inserts a row into `audit`: all three succeed, `Down` leaves
`audit` in place, and the sequence leaves two rows in `audit` where a single `Up`
leaves one. -/
theorem roundTrip_counterexample :
    (hasRecord (untouched [⟨"messages", []⟩]) migrationName = false ∧
      (Up pgFragment (quiet (.ok "CREATE TABLE IF NOT EXISTS users (id INT)") 1)
        (untouched [⟨"messages", []⟩])) =
        ⟨none, ⟨some [⟨"001_initial_schema", 1⟩], [⟨"messages", []⟩, ⟨"users", []⟩], true⟩,
          ["Applied migration: 001_initial_schema"],
          [.createTable, .countVersion, .beginTx, .execSchema, .insertRecord, .commit]⟩ ∧
      (Down pgFragment (quiet (.ok "CREATE TABLE IF NOT EXISTS users (id INT)") 2)
        ⟨some [⟨"001_initial_schema", 1⟩], [⟨"messages", []⟩, ⟨"users", []⟩], true⟩) =
        ⟨none, ⟨some [], [⟨"users", []⟩], false⟩,
          ["Rolled back migration: 001_initial_schema"],
          [.countVersion, .beginTx, .dropMessages, .deleteRecord, .commit]⟩ ∧
      (Up pgFragment (quiet (.ok "CREATE TABLE IF NOT EXISTS users (id INT)") 3)
        ⟨some [], [⟨"users", []⟩], false⟩) =
        ⟨none, ⟨some [⟨"001_initial_schema", 3⟩], [⟨"users", []⟩], true⟩,
          ["Applied migration: 001_initial_schema"],
          [.createTable, .countVersion, .beginTx, .execSchema, .insertRecord, .commit]⟩) ∧
    (hasRecord fresh migrationName = false ∧
      (Up pgFragment (quiet (.ok
        "CREATE TABLE messages (id INT); CREATE TABLE IF NOT EXISTS audit (note TEXT); INSERT INTO audit VALUES ('up')")
        1) fresh) =
        ⟨none, ⟨some [⟨"001_initial_schema", 1⟩], [⟨"messages", []⟩, ⟨"audit", ["up"]⟩], true⟩,
          ["Applied migration: 001_initial_schema"],
          [.createTable, .countVersion, .beginTx, .execSchema, .insertRecord, .commit]⟩ ∧
      (Down pgFragment (quiet (.ok "") 2)
        ⟨some [⟨"001_initial_schema", 1⟩], [⟨"messages", []⟩, ⟨"audit", ["up"]⟩], true⟩) =
        ⟨none, ⟨some [], [⟨"audit", ["up"]⟩], false⟩,
          ["Rolled back migration: 001_initial_schema"],
          [.countVersion, .beginTx, .dropMessages, .deleteRecord, .commit]⟩ ∧
      (Up pgFragment (quiet (.ok
        "CREATE TABLE messages (id INT); CREATE TABLE IF NOT EXISTS audit (note TEXT); INSERT INTO audit VALUES ('up')")
        3) ⟨some [], [⟨"audit", ["up"]⟩], false⟩) =
        ⟨none,
          ⟨some [⟨"001_initial_schema", 3⟩], [⟨"audit", ["up", "up"]⟩, ⟨"messages", []⟩], true⟩,
          ["Applied migration: 001_initial_schema"],
          [.createTable, .countVersion, .beginTx, .execSchema, .insertRecord, .commit]⟩) := by
  decide

theorem versions_applied (env : Env) (db : DB) (s : Schema) :
    versions (applied env db s) =
      some ((db.migrations.getD []).map (fun r => r.version) ++ [migrationName]) := by
  simp [versions, applied]

/-- C4, amended: in a state without the record of the migration, when `Up`,
`Down` and `Up` succeed in succession, the second `Up` reads the schema text the
first one read, and the reverse action of `Down` restored the target schema that
preceded the first `Up`, then the sequence leaves the target schema and the
versions recorded in `schema_migrations` as the first `Up` left them. -/
theorem roundTrip_of_exact_reverse (pg : SqlEngine) (env1 env2 env3 : Env) (db : DB)
    (hrec : hasRecord db migrationName = false)
    (h1 : (Up pg env1 db).err = none)
    (h2 : (Down pg env2 (Up pg env1 db).db).err = none)
    (h3 : (Up pg env3 (Down pg env2 (Up pg env1 db).db).db).err = none)
    (hfile : env3.schemaFile = env1.schemaFile)
    (hundo : (Down pg env2 (Up pg env1 db).db).db.schema = db.schema) :
    (Up pg env3 (Down pg env2 (Up pg env1 db).db).db).db.schema = (Up pg env1 db).db.schema ∧
      versions (Up pg env3 (Down pg env2 (Up pg env1 db).db).db).db =
        versions (Up pg env1 db).db ∧
      (Up pg env3 (Down pg env2 (Up pg env1 db).db).db).db.ddlInEffect =
        (Up pg env1 db).db.ddlInEffect := by
  rcases Up_success pg env1 db h1 with ⟨hr, _⟩ | ⟨_, text1, hfile1, _, hu1⟩
  · rw [hrec] at hr; cases hr
  · rw [hu1] at h2 h3 hundo ⊢
    simp only at h2 h3 hundo ⊢
    rcases Down_success pg env2 _ h2 with ⟨hr, _⟩ | ⟨_, _, hd⟩
    · rw [hasRecord_applied] at hr; cases hr
    · rw [hd] at h3 hundo ⊢
      simp only at h3 hundo ⊢
      rcases Up_success pg env3 _ h3 with ⟨hr, _⟩ | ⟨_, text3, hfile3, _, hu3⟩
      · rw [hasRecord_reversed] at hr; cases hr
      · rw [hu3]
        simp only
        have htext : text3 = text1 := by
          rw [hfile, hfile1] at hfile3
          cases hfile3
          rfl
        subst htext
        have hany : ((db.migrations.getD []).any fun r => r.version == migrationName) = false := by
          unfold hasRecord at hrec
          cases hm : db.migrations with
          | none => rfl
          | some rs => simpa [hm] using hrec
        refine ⟨?_, ?_, rfl⟩
        · simp only [reversed, applied] at hundo
          simp only [applied, reversed, hundo]
        · rw [versions_applied, versions_applied]
          simp only [reversed, applied, Option.getD_some, List.filter_append]
          rw [filter_not_of_any_false _ _ hany]
          simp [migrationName]

theorem roundTrip_of_exact_reverse_witness :
    (Up pgFragment
      (quiet (.ok "CREATE TABLE messages (id SERIAL PRIMARY KEY, content TEXT NOT NULL)") 3)
      (Down pgFragment (quiet (.ok "") 2)
        (Up pgFragment
          (quiet (.ok "CREATE TABLE messages (id SERIAL PRIMARY KEY, content TEXT NOT NULL)") 1)
          (untouched [⟨"audit", ["a"]⟩])).db).db).db.schema =
      [⟨"audit", ["a"]⟩, ⟨"messages", []⟩] ∧
    (Up pgFragment
      (quiet (.ok "CREATE TABLE messages (id SERIAL PRIMARY KEY, content TEXT NOT NULL)") 1)
      (untouched [⟨"audit", ["a"]⟩])).db.schema = [⟨"audit", ["a"]⟩, ⟨"messages", []⟩] :=
  ⟨(roundTrip_of_exact_reverse pgFragment
    (quiet (.ok "CREATE TABLE messages (id SERIAL PRIMARY KEY, content TEXT NOT NULL)") 1)
    (quiet (.ok "") 2)
    (quiet (.ok "CREATE TABLE messages (id SERIAL PRIMARY KEY, content TEXT NOT NULL)") 3)
    (untouched [⟨"audit", ["a"]⟩]) (by decide) (by decide) (by decide) (by decide) rfl
    (by decide)).1.trans (by decide), by decide⟩

/-! ## Tracking invariant -/

theorem invoke_tracks (pg : SqlEngine) (db : DB) (i : Op × Env)
    (h : hasRecord db migrationName = db.ddlInEffect) :
    hasRecord (invoke pg db i) migrationName = (invoke pg db i).ddlInEffect := by
  obtain ⟨op, env⟩ := i
  cases op with
  | up =>
    simp only [invoke]
    cases herr : (Up pg env db).err with
    | none =>
      rcases Up_success pg env db herr with ⟨_, hu⟩ | ⟨_, text, _, _, hu⟩
      · rw [hu]; exact h
      · rw [hu]; simp only [hasRecord_applied]; rfl
    | some e =>
      have hne : (Up pg env db).err ≠ none := by rw [herr]; simp
      rcases Up_failure pg env db hne with hu | hu
      · rw [hu]; exact h
      · rw [hu, hasRecord_ensured]; exact h
  | down =>
    simp only [invoke]
    cases herr : (Down pg env db).err with
    | none =>
      rcases Down_success pg env db herr with ⟨_, _, hd⟩ | ⟨_, _, hd⟩
      · rw [hd]; exact h
      · rw [hd]; simp only [hasRecord_reversed]; rfl
    | some e =>
      have hne : (Down pg env db).err ≠ none := by rw [herr]; simp
      rw [Down_failure pg env db hne]; exact h

theorem run_tracks (pg : SqlEngine) (is : List (Op × Env)) (db : DB)
    (h : hasRecord db migrationName = db.ddlInEffect) :
    hasRecord (run pg db is) migrationName = (run pg db is).ddlInEffect := by
  induction is generalizing db with
  | nil => exact h
  | cons i rest ih =>
    simp only [run, List.foldl_cons]
    exact ih (invoke pg db i) (invoke_tracks pg db i h)

/-- C5: in every database reached from a fresh one by a finite sequence of
invocations of `Up` and `Down`, each in its own environment (any call may fail,
the schema file may be unreadable or change), the record of the migration exists
exactly when the schema text is in effect: the last statement the migrator
committed on the target schema was the schema text of `Up` and not the reverse
action of `Down`. Moreover every successful `Up` leaves the record present and
every successful `Down` leaves it absent. -/
theorem tracking_invariant (pg : SqlEngine) (is : List (Op × Env)) (env : Env) :
    hasRecord (run pg fresh is) migrationName = (run pg fresh is).ddlInEffect ∧
      ((Up pg env (run pg fresh is)).err = none →
        hasRecord (Up pg env (run pg fresh is)).db migrationName = true) ∧
      ((Down pg env (run pg fresh is)).err = none →
        hasRecord (Down pg env (run pg fresh is)).db migrationName = false) := by
  refine ⟨run_tracks pg is fresh rfl, ?_, ?_⟩
  · intro herr
    rcases Up_success pg env _ herr with ⟨hr, hu⟩ | ⟨_, text, _, _, hu⟩
    · rw [hu]; exact hr
    · rw [hu]; exact hasRecord_applied _ _ _
  · intro herr
    rcases Down_success pg env _ herr with ⟨hr, _, hd⟩ | ⟨_, _, hd⟩
    · rw [hd]; exact hr
    · rw [hd]; exact hasRecord_reversed _ _

theorem tracking_invariant_witness :
    run pgFragment fresh
        [(.down, quiet (.ok "") 1),
         (.up, failing .insertRecord
           (.ok "CREATE TABLE messages (id SERIAL PRIMARY KEY, content TEXT NOT NULL)") 2),
         (.up, quiet
           (.ok "CREATE TABLE messages (id SERIAL PRIMARY KEY, content TEXT NOT NULL)") 3),
         (.down, failing .commit (.ok "") 4)] =
        ⟨some [⟨"001_initial_schema", 3⟩], [⟨"messages", []⟩], true⟩ ∧
      hasRecord (Down pgFragment (quiet (.ok "") 5)
        (run pgFragment fresh
          [(.down, quiet (.ok "") 1),
           (.up, failing .insertRecord
             (.ok "CREATE TABLE messages (id SERIAL PRIMARY KEY, content TEXT NOT NULL)") 2),
           (.up, quiet
             (.ok "CREATE TABLE messages (id SERIAL PRIMARY KEY, content TEXT NOT NULL)") 3),
           (.down, failing .commit (.ok "") 4)])).db migrationName = false :=
  ⟨by decide,
    (tracking_invariant pgFragment
      [(.down, quiet (.ok "") 1),
       (.up, failing .insertRecord
         (.ok "CREATE TABLE messages (id SERIAL PRIMARY KEY, content TEXT NOT NULL)") 2),
       (.up, quiet
         (.ok "CREATE TABLE messages (id SERIAL PRIMARY KEY, content TEXT NOT NULL)") 3),
       (.down, failing .commit (.ok "") 4)]
      (quiet (.ok "") 5)).2.2 (by decide)⟩

/-! ## `Up` on an applied migration -/

/-- C6, counterexample: with the record of the migration present and
`db/schema.sql` missing, `Up` does not return success: it returns the error of
the read, before it looks for the record. -/
theorem Up_applied_unreadable_counterexample :
    hasRecord ⟨some [⟨"001_initial_schema", 1⟩], [⟨"messages", []⟩], true⟩ migrationName = true ∧
      Up pgFragment (quiet (.error "open db/schema.sql: no such file or directory") 2)
        ⟨some [⟨"001_initial_schema", 1⟩], [⟨"messages", []⟩], true⟩ =
        ⟨some (.wrap "failed to read schema.sql"
          (.file "open db/schema.sql: no such file or directory")),
          ⟨some [⟨"001_initial_schema", 1⟩], [⟨"messages", []⟩], true⟩, [], [.createTable]⟩ := by
  decide

/-- C6, amended: in a state with the record of the migration, when the calls
that ensure the bookkeeping table and count the record do not fail, `Up` leaves
the database unchanged and, if `db/schema.sql` can be read, whatever its
contents, returns success after those two calls; if the file cannot be read it
returns the error of the read, wrapped, after the first call. -/
theorem Up_applied_shortcut (pg : SqlEngine) (env : Env) (db : DB)
    (hrec : hasRecord db migrationName = true)
    (hct : env.fault .createTable = none) (hcv : env.fault .countVersion = none) :
    Up pg env db =
      match env.schemaFile with
      | .ok _ =>
        ⟨none, db, ["Migration 001_initial_schema already applied, skipping"],
          [.createTable, .countVersion]⟩
      | .error msg =>
        ⟨some (.wrap "failed to read schema.sql" (.file msg)), db, [], [.createTable]⟩ := by
  have hsome := hasRecord_isSome db _ hrec
  have h1 := createMigrationsTable_of_isSome env db hct hsome
  have h2 : isMigrationApplied env db migrationName = .ok true := by
    rw [isMigrationApplied_eq env db _ hcv hsome, hrec]
  cases hfile : env.schemaFile with
  | error msg => simp only [Up, h1, hfile]
  | ok text =>
    simp only [Up, h1, hfile, h2]
    rfl

theorem Up_applied_shortcut_witness :
    Up pgFragment (quiet (.ok "not even SQL") 2)
        ⟨some [⟨"001_initial_schema", 1⟩], [⟨"messages", []⟩], true⟩ =
      ⟨none, ⟨some [⟨"001_initial_schema", 1⟩], [⟨"messages", []⟩], true⟩,
        ["Migration 001_initial_schema already applied, skipping"],
        [.createTable, .countVersion]⟩ :=
  Up_applied_shortcut pgFragment (quiet (.ok "not even SQL") 2)
    ⟨some [⟨"001_initial_schema", 1⟩], [⟨"messages", []⟩], true⟩ (by decide) rfl rfl

/-! ## `Status` -/

/-- C7: on a database without the bookkeeping table, when the existence query
does not fail, `Status` succeeds, prints the one line "Migrations table does not
exist. No migrations have been run." and issues the existence query alone: the
record query is not issued. On a database whose bookkeeping table exists, no run
of `Status` prints that report, and on an empty table, when neither query fails,
it prints "Applied migrations:" followed by "  No migrations have been
applied.". -/
theorem Status_missing_table_distinct (env env2 env3 : Env) (db db2 db3 : DB)
    (hmiss : db.migrations = none) (hq : env.fault .tableExists = none)
    (hex : db2.migrations.isSome = true)
    (hempty : db3.migrations = some []) (hq3 : env3.fault .tableExists = none)
    (hs3 : env3.fault .selectRecords = none) :
    Status env db =
        ⟨none, db, ["Migrations table does not exist. No migrations have been run."],
          [.tableExists]⟩ ∧
      Call.selectRecords ∉ (Status env db).calls ∧
      (Status env2 db2).stdout ≠ (Status env db).stdout ∧
      Status env3 db3 =
        ⟨none, db3, ["Applied migrations:", "  No migrations have been applied."],
          [.tableExists, .selectRecords]⟩ := by
  have h1 : Status env db =
      ⟨none, db, ["Migrations table does not exist. No migrations have been run."],
        [.tableExists]⟩ := by
    simp [Status, tableExists, hq, hmiss]
  refine ⟨h1, ?_, ?_, ?_⟩
  · rw [h1]; simp
  · rw [h1]
    simp only
    cases hf : env2.fault .tableExists with
    | some e => simp [Status, tableExists, hf]
    | none =>
      cases hsel : selectRecords env2 db2 with
      | error e => simp [Status, tableExists, hf, hex, hsel]
      | ok rows =>
        cases hscan : scanRows env2 rows 0 with
        | mk lines rest =>
          obtain ⟨scans, oe⟩ := rest
          cases oe <;>
            simp [Status, tableExists, hf, hex, hsel, hscan]
  · simp [Status, tableExists, selectRecords, hq3, hs3, hempty, scanRows]

theorem Status_missing_table_distinct_witness :
    Status (quiet (.ok "") 1) fresh =
        ⟨none, fresh, ["Migrations table does not exist. No migrations have been run."],
          [.tableExists]⟩ ∧
      Status (quiet (.ok "") 3) (ensured fresh) =
        ⟨none, ensured fresh, ["Applied migrations:", "  No migrations have been applied."],
          [.tableExists, .selectRecords]⟩ :=
  have h := Status_missing_table_distinct (quiet (.ok "") 1) (quiet (.ok "") 2)
    (quiet (.ok "") 3) fresh (ensured fresh) (ensured fresh) rfl rfl rfl rfl rfl rfl
  ⟨h.1, h.2.2.2⟩

/-! ## Command dispatch -/

/-- C8, counterexample: with an unknown command and `DB_URL` unset, the program
exits with status 1 but prints neither the usage nor the list of commands: it
logs that `DB_URL` is required and stops before the dispatch. -/
theorem main_unknown_counterexample :
    main pgFragment ⟨["migrate", "bogus"], "", none, none, quiet (.ok "") 1⟩ fresh =
      ⟨1, [], ["DB_URL environment variable is required"], fresh, []⟩ := by
  decide

/-- C8, amended: when the command is missing or is none of "up", "down" and
"status", in every environment the program exits with status 1, leaves the
database unchanged and issues no call of the migrator. With the command missing
it prints the usage text. With an unknown command it prints "Unknown command"
and the available commands when `DB_URL` is set and the database can be opened
and pinged; otherwise it prints nothing on standard output (the fatal error is
logged). -/
theorem main_rejects_command (pg : SqlEngine) (p : Process) (db : DB)
    (hcmd : ∀ c, p.args[1]? = some c → c ≠ "up" ∧ c ≠ "down" ∧ c ≠ "status") :
    (main pg p db).code = 1 ∧ (main pg p db).db = db ∧ (main pg p db).calls = [] ∧
      (main pg p db).stdout =
        match p.args[1]? with
        | none => usage
        | some c =>
          if p.dbURL = "" ∨ p.openErr ≠ none ∨ p.pingErr ≠ none then []
          else ["Unknown command: " ++ c, "Available commands: up, down, status"] := by
  cases hargs : p.args with
  | nil => simp [main, hargs]
  | cons a rest =>
    cases rest with
    | nil => simp [main, hargs]
    | cons c rest2 =>
      have hc := hcmd c (by simp [hargs])
      by_cases hurl : p.dbURL = ""
      · simp [main, hargs, hurl]
      · cases hopen : p.openErr with
        | some e => simp [main, hargs, hurl, NewMigrator, hopen]
        | none =>
          cases hping : p.pingErr with
          | some e => simp [main, hargs, hurl, NewMigrator, hopen, hping]
          | none => simp [main, hargs, hurl, NewMigrator, hopen, hping, hc.1, hc.2.1, hc.2.2]

theorem main_rejects_command_witness :
    main pgFragment (cli "bogus" (quiet (.ok "") 1)) fresh =
      ⟨1, ["Unknown command: bogus", "Available commands: up, down, status"], [], fresh, []⟩ ∧
    (main pgFragment (cli "bogus" (quiet (.ok "") 1)) fresh).code = 1 :=
  ⟨by decide,
    (main_rejects_command pgFragment (cli "bogus" (quiet (.ok "") 1)) fresh (by decide)).1⟩

/-! ## End to end -/

/-- C9: from a fresh database, with a schema text the server runs without error
on the empty schema, a reverse action the server runs without error on the
result, and no failing call: `migrate up` exits with status 0 and commits the
schema and one record; `migrate status` then exits with status 0 and lists one
record, of version "001_initial_schema"; `migrate down` then exits with status
0 and leaves the bookkeeping table empty; `migrate status` then exits with
status 0 and reports that no migrations have been applied. -/
theorem end_to_end (pg : SqlEngine) (e1 e2 e3 e4 : Env) (text : String)
    (hf1 : ∀ c, e1.fault c = none) (hf2 : ∀ c, e2.fault c = none)
    (hf3 : ∀ c, e3.fault c = none) (hf4 : ∀ c, e4.fault c = none)
    (hfile : e1.schemaFile = .ok text)
    (hvalid : (pg text []).2 = none)
    (hdrop : (pg "DROP TABLE IF EXISTS messages" (pg text []).1).2 = none) :
    main pg (cli "up" e1) fresh =
        ⟨0, ["Applied migration: 001_initial_schema", "Migration completed successfully!"], [],
          ⟨some [⟨"001_initial_schema", e1.now⟩], (pg text []).1, true⟩,
          [.createTable, .countVersion, .beginTx, .execSchema, .insertRecord, .commit]⟩ ∧
      main pg (cli "status" e2) ⟨some [⟨"001_initial_schema", e1.now⟩], (pg text []).1, true⟩ =
        ⟨0, ["Applied migrations:",
            "  001_initial_schema (applied at: " ++ toString e1.now ++ ")"], [],
          ⟨some [⟨"001_initial_schema", e1.now⟩], (pg text []).1, true⟩,
          [.tableExists, .selectRecords, .scanRow 0]⟩ ∧
      main pg (cli "down" e3) ⟨some [⟨"001_initial_schema", e1.now⟩], (pg text []).1, true⟩ =
        ⟨0, ["Rolled back migration: 001_initial_schema", "Migration rollback completed!"], [],
          ⟨some [], (pg "DROP TABLE IF EXISTS messages" (pg text []).1).1, false⟩,
          [.countVersion, .beginTx, .dropMessages, .deleteRecord, .commit]⟩ ∧
      main pg (cli "status" e4)
          ⟨some [], (pg "DROP TABLE IF EXISTS messages" (pg text []).1).1, false⟩ =
        ⟨0, ["Applied migrations:", "  No migrations have been applied."], [],
          ⟨some [], (pg "DROP TABLE IF EXISTS messages" (pg text []).1).1, false⟩,
          [.tableExists, .selectRecords]⟩ := by
  have hup := Up_eq_applied pg e1 fresh text hf1 hfile rfl hvalid
  have hdown := Down_eq_reversed pg e3
    ⟨some [⟨"001_initial_schema", e1.now⟩], (pg text []).1, true⟩ hf3
    (by simp [hasRecord, migrationName]) hdrop
  refine ⟨?_, ?_, ?_, ?_⟩
  · have hm : main pg (cli "up" e1) fresh =
        finish "Migration up failed:" ["Migration completed successfully!"] (Up pg e1 fresh) := by
      simp [main, cli, NewMigrator]
    rw [hm, hup]
    simp [finish, applied, fresh, untouched, migrationName]
  · simp [main, cli, NewMigrator, finish, Status, tableExists, selectRecords, scanRows, hf2,
      statusRow]
  · have hm : ∀ d, main pg (cli "down" e3) d =
        finish "Migration down failed:" ["Migration rollback completed!"] (Down pg e3 d) := by
      intro d
      simp [main, cli, NewMigrator]
    rw [hm, hdown]
    simp [finish, reversed, migrationName]
  · simp [main, cli, NewMigrator, finish, Status, tableExists, selectRecords, scanRows, hf4]

theorem end_to_end_witness :
    (main pgFragment
      (cli "up" (quiet
        (.ok "CREATE TABLE messages (id SERIAL PRIMARY KEY, content TEXT NOT NULL)") 7))
      fresh).db = ⟨some [⟨"001_initial_schema", 7⟩], [⟨"messages", []⟩], true⟩ ∧
    (main pgFragment (cli "down" (quiet (.ok "") 9))
      ⟨some [⟨"001_initial_schema", 7⟩], [⟨"messages", []⟩], true⟩).db = ⟨some [], [], false⟩ :=
  have h := end_to_end pgFragment
    (quiet (.ok "CREATE TABLE messages (id SERIAL PRIMARY KEY, content TEXT NOT NULL)") 7)
    (quiet (.ok "") 8) (quiet (.ok "") 9) (quiet (.ok "") 10)
    "CREATE TABLE messages (id SERIAL PRIMARY KEY, content TEXT NOT NULL)"
    (fun _ => rfl) (fun _ => rfl) (fun _ => rfl) (fun _ => rfl) rfl (by decide) (by decide)
  ⟨(congrArg Exit.db h.1).trans (by decide), (congrArg Exit.db h.2.2.1).trans (by decide)⟩

/-! ## Failure of `Down` -/

/-- C10: in a state with the record of the migration, when the count query and
`BeginTx` succeed and a step of the transaction of `Down` fails, the `DROP
TABLE`, the `DELETE` of the record or the commit, then `Down` returns the
error of that step wrapped once with a context, so that unwrapping gives the
error back unmodified; the failing step is the last call it issues; and the
committed database, target schema and records, is exactly what it was before the
call. -/
theorem Down_failure_semantics (pg : SqlEngine) (env : Env) (db : DB) (c : Call) (e : DbError)
    (hrec : hasRecord db migrationName = true)
    (hcv : env.fault .countVersion = none) (hb : env.fault .beginTx = none)
    (hfail : downFailsAt pg env db c e) :
    (∃ context, (Down pg env db).err = some (.wrap context (.driver e))) ∧
      (Down pg env db).err.bind GoError.Unwrap = some (.driver e) ∧
      (Down pg env db).db = db ∧
      (Down pg env db).calls.getLast? = some c ∧
      (∃ later, (Down pg env db).calls ++ later =
        [.countVersion, .beginTx, .dropMessages, .deleteRecord, .commit]) ∧
      (Down pg env db).stdout = [] := by
  have hsome := hasRecord_isSome db _ hrec
  have happ : isMigrationApplied env db migrationName = .ok true := by
    rw [isMigrationApplied_eq env db _ hcv hsome, hrec]
  have hbegin : BeginTx env db = .ok ⟨db, db⟩ := by simp [BeginTx, hb]
  have hs1 := dropMessages_snapshot pg env ⟨db, db⟩
  cases hdrop : Tx.dropMessages pg env ⟨db, db⟩ with
  | mk tx1 oe =>
    rw [hdrop] at hs1
    simp only at hs1
    cases oe with
    | some e1 =>
      cases c <;> simp [downFailsAt, hdrop] at hfail
      subst hfail
      simp [Down, happ, hbegin, hdrop, Tx.Rollback, hs1, GoError.Unwrap]
    | none =>
      cases hdel : tx1.deleteRecord env migrationName with
      | error e2 =>
        cases c <;> simp [downFailsAt, hdrop, hdel, Except.isOk, Except.toBool] at hfail
        subst hfail
        simp [Down, happ, hbegin, hdrop, hdel, Tx.Rollback, hs1, GoError.Unwrap]
      | ok tx2 =>
        have hs2 : tx2.snapshot = tx1.snapshot := by
          obtain ⟨_, rs, _, h⟩ := deleteRecord_ok env migrationName tx1 tx2 hdel
          rw [h]
        cases c <;> simp [downFailsAt, hdrop, hdel] at hfail
        simp [Down, happ, hbegin, hdrop, hdel, Tx.Commit, hfail, Tx.Rollback, hs1, hs2,
          GoError.Unwrap]

theorem Down_failure_semantics_witness :
    Down pgFragment (failing .deleteRecord (.ok "") 4)
        ⟨some [⟨"001_initial_schema", 3⟩], [⟨"messages", ["m1"]⟩], true⟩ =
      ⟨some (.wrap "failed to remove migration record"
          (.driver (.connection "connection reset by peer"))),
        ⟨some [⟨"001_initial_schema", 3⟩], [⟨"messages", ["m1"]⟩], true⟩, [],
        [.countVersion, .beginTx, .dropMessages, .deleteRecord]⟩ ∧
    (Down pgFragment (failing .deleteRecord (.ok "") 4)
        ⟨some [⟨"001_initial_schema", 3⟩], [⟨"messages", ["m1"]⟩], true⟩).db =
      ⟨some [⟨"001_initial_schema", 3⟩], [⟨"messages", ["m1"]⟩], true⟩ :=
  ⟨by decide,
    (Down_failure_semantics pgFragment (failing .deleteRecord (.ok "") 4)
      ⟨some [⟨"001_initial_schema", 3⟩], [⟨"messages", ["m1"]⟩], true⟩ .deleteRecord
      (.connection "connection reset by peer") (by decide) rfl rfl
      ⟨by decide, rfl⟩).2.2.1⟩

end Migrate
